import Mathlib

/-!
Verification of the hammer issue-lifecycle and scan-continuation engine.

Part 1 embeds the ECS privileged-access identification lambda
(`describe_ecs_privileged_access_issues.py`): payload parsing with the
LIFO region pop, the per-region reconciliation (detection refresh plus
resolve-missing), and the SNS continuation chain.

Part 2 embeds the IAM access-key rotation scheduler
(`clean_iam_key_rotation.py`): the per-issue skip / warn / remediate
decision logic, with external collaborators (jira, slack, IAM, confirm,
session) modelled as success/failure oracles and the performed side
effects recorded as an event trace.
-/

namespace Hammer

/-- Issue statuses, from `library.ddb_issues.IssueStatus` as described by the
spec data model. -/
inductive IssueStatus where
  | Open
  | Whitelisted
  | Notified
  | Remediated
  | Resolved
deriving DecidableEq, Repr

/-- A stored issue record: the fields of the DDB issue that the ECS
reconciliation reads or writes (the recorded region inside
`issue_details`, and the status). -/
structure IssueRec where
  region : String
  status : IssueStatus
deriving DecidableEq, Repr

/-- The issue store for one account: a map from `issue_id` to the stored
record, `none` when no issue with that id exists. -/
def Store : Type := String → Option IssueRec

/-- One scanner finding: an ECS task definition, with its name (which
becomes the `issue_id`) and its privileged flag. -/
structure Finding where
  name : String
  is_privileged : Bool
deriving DecidableEq, Repr

/-- Modelled from the spec: the status merge performed by
`IssueOperations.update` (`library/ddb_issues.py`, not part of the source
slice). Per the spec, the detection refresh sets status `Open` only if the
stored issue is not already further along: `Notified`/`Remediated` are not
regressed back to `Open`; any other incoming status is written as given. -/
def mergeStatus (stored incoming : IssueStatus) : IssueStatus :=
  if incoming = .Open ∧ (stored = .Notified ∨ stored = .Remediated)
  then stored else incoming

/-- Modelled from the spec: `IssueOperations.update` upserts the issue
record keyed by `issue_id`, refreshing `issue_details` (here: the region)
and merging the status with `mergeStatus`. -/
def ddbUpdate (tbl : Store) (region issueId : String) (st : IssueStatus) : Store :=
  fun k =>
    if k = issueId then
      some (match tbl issueId with
            | some old => ⟨region, mergeStatus old.status st⟩
            | none => ⟨region, st⟩)
    else tbl k

/-- The body of the detection loop of `lambda_handler` for one task
definition (lines 52-68): privileged task definitions are written with
status `Whitelisted` when the whitelist filter matches the name, `Open`
otherwise; non-privileged task definitions are ignored. -/
def refreshFinding (wl : String → Bool) (region : String) (tbl : Store)
    (td : Finding) : Store :=
  if td.is_privileged then
    ddbUpdate tbl region td.name (if wl td.name then .Whitelisted else .Open)
  else tbl

/-- The whole detection loop over the checker's task definitions. -/
def refreshFindings (wl : String → Bool) (region : String) (tbl : Store)
    (fs : List Finding) : Store :=
  fs.foldl (refreshFinding wl region) tbl

/-- Whether the detection loop pops issue id `k` from the open-issue
dictionary: some privileged finding has name `k` (line 68 runs inside the
`is_privileged` branch). -/
def findingMatches (fs : List Finding) (k : String) : Bool :=
  fs.any fun td => td.is_privileged && td.name == k

/-- Modelled from the spec: the statuses returned by
`get_account_open_issues` (`library/ddb_issues.py`, not part of the source
slice) — per the spec the reconciliation input is the set of issues
currently `Open`/`Whitelisted`/`Notified`. -/
def IssueStatus.isOpenIssue : IssueStatus → Bool
  | .Open => true
  | .Whitelisted => true
  | .Notified => true
  | _ => false

/-- One region scan of `lambda_handler` (lines 44-73): snapshot the open
issues of the scanned region, run the detection loop when `checker.check()`
succeeded, then set every snapshotted issue that no privileged finding
popped to `Resolved`. When `check()` fails the detection loop is skipped
but the resolve step still runs over the whole snapshot. -/
def scanRegion (checkOk : Bool) (wl : String → Bool) (region : String)
    (fs : List Finding) (tbl : Store) : Store :=
  let tbl1 := if checkOk then refreshFindings wl region tbl fs else tbl
  fun k =>
    match tbl k with
    | some old =>
        if old.region == region && old.status.isOpenIssue
            && !(checkOk && findingMatches fs k)
        then some ⟨old.region, .Resolved⟩
        else tbl1 k
    | none => tbl1 k

/-- The reconciliation proper: a region scan whose `checker.check()`
returned true. -/
def reconcile (wl : String → Bool) (region : String) (fs : List Finding)
    (tbl : Store) : Store :=
  scanRegion true wl region fs tbl

/-- The trigger payload (`ScanContext`): the SNS message parsed at the top
of `lambda_handler`. -/
structure Payload where
  account_id : String
  account_name : String
  regions : List String
  sns_arn : String
deriving DecidableEq, Repr

/-- The external world of one lambda invocation: whether the account
session opens, whether `checker.check()` succeeds, the whitelist filter,
the findings the checker produces per region, and whether `Sns.publish`
succeeds. -/
structure ScanEnv where
  sessionOk : Bool
  checkOk : Bool
  wl : String → Bool
  findings : String → List Finding
  publishOk : Bool

/-- The observable outcome of one `lambda_handler` invocation: the issue
store after the call, the payload republished to the continuation topic
(if any), and the region that was scanned (if any). -/
structure HandlerResult where
  table : Store
  published : Option Payload
  scanned : Option String

/-- `payload['regions'].pop()`: removes and returns the last region of the
list; raises (returns `none`) on an empty list. -/
def popRegion (regions : List String) : Option (String × List String) :=
  match regions.reverse with
  | [] => none
  | r :: rest => some (r, rest.reverse)

/-- `lambda_handler` of `describe_ecs_privileged_access_issues.py`.
A failing parse (empty region list) returns with no side effects; a
missing account session returns before any store access and without
publishing; otherwise the region is scanned and the payload minus the
popped region is republished iff regions remain and the publish does not
fail. -/
def lambda_handler (env : ScanEnv) (payload : Payload) (tbl : Store) :
    HandlerResult :=
  match popRegion payload.regions with
  | none => ⟨tbl, none, none⟩
  | some (region, remaining) =>
      if env.sessionOk then
        let tbl1 := scanRegion env.checkOk env.wl region (env.findings region) tbl
        let pub := if !remaining.isEmpty && env.publishOk then
                     some ⟨payload.account_id, payload.account_name,
                           remaining, payload.sns_arn⟩
                   else none
        ⟨tbl1, pub, some region⟩
      else ⟨tbl, none, none⟩

/-- Simulation of the continuation chain: run `lambda_handler`, and while
it republishes a payload, run the next invocation on it. Returns the list
of scanned regions in order and the final store. `fuel` bounds the chain
length. -/
def runChain (env : ScanEnv) : Nat → Payload → Store → List String × Store
  | 0, _, tbl => ([], tbl)
  | fuel + 1, payload, tbl =>
      let r := lambda_handler env payload tbl
      match r.scanned, r.published with
      | some reg, some p' =>
          let rest := runChain env fuel p' r.table
          (reg :: rest.1, rest.2)
      | some reg, none => ([reg], r.table)
      | none, _ => ([], r.table)

/-- The status the detection loop writes for a privileged finding named
`k`: `Whitelisted` when the whitelist filter matches, `Open` otherwise
(lines 60-63). -/
def detectTarget (wl : String → Bool) (k : String) : IssueStatus :=
  if wl k then .Whitelisted else .Open

/-- The status stored after `ddbUpdate` writes `st` over the current
record `cur`. -/
def detectedStatus (cur : Option IssueRec) (st : IssueStatus) : IssueStatus :=
  match cur with
  | some old => mergeStatus old.status st
  | none => st

/-! ## Part 2: the IAM access-key rotation scheduler -/

/-- The fields of an `IAMKeyRotationIssue` read by
`clean_iam_access_keys`. `ageDays` is `(config.now - updated_date).days`;
`slackNotifiedAgo` is `(config.now - slack_notified_date).days`, `none`
when `slack_notified_date` is missing so that `dateutil.parser.parse`
raises. -/
structure KeyIssue where
  key_id : String
  username : String
  reported : Bool
  alreadyRemediated : Bool
  ageDays : Int
  slackNotifiedAgo : Option Int
  ticket : String
deriving DecidableEq, Repr

/-- The configuration values read by `clean_iam_access_keys`. -/
structure SchedConfig where
  retention_period : Int
  remediation_warning_days : List Int
deriving DecidableEq, Repr

/-- Success/failure oracles for the scheduler's external collaborators:
whitelist lookup, the interactive confirmation prompt, the account
session, `IAMOperations.disable_access_key`, and the jira/slack calls of
the warning and remediation branches (`false` means the call raises). -/
structure RemEnv where
  in_whitelist : String → String → Bool
  confirmOk : String → Bool
  sessionOk : String → Bool
  disableOk : String → Bool
  slackWarnOk : String → Bool
  jiraWarnOk : String → Bool
  jiraRemediateOk : String → Bool
  slackReportOk : String → Bool

/-- The side effects `clean_iam_access_keys` can perform, recorded in
program order. -/
inductive RemEvent where
  | slackWarned (account_id key_id : String) (days : Int)
  | jiraWarned (ticket : String) (days : Int)
  | statusNotified (key_id : String)
  | remediationStarted (key_id : String)
  | keyDisableAttempt (username key_id : String)
  | jiraRemediated (ticket comment : String) (reassign : Bool)
  | slackReported (account_id comment : String)
  | statusRemediated (key_id : String)
deriving DecidableEq, Repr

/-- The remediation success comment (line 98). -/
def successComment (key_id username account_name account_id : String) : String :=
  "Stale access key " ++ key_id ++ " / " ++ username ++ " issue in "
    ++ account_name ++ " / " ++ account_id
    ++ " account was remediated by hammer"

/-- The remediation failure comment (line 104): a distinct message asking
for a manual check. -/
def failureComment (key_id username account_name account_id : String) : String :=
  "Failed to remediate stale access key " ++ key_id ++ " / " ++ username
    ++ " issue in " ++ account_name ++ " / " ++ account_id
    ++ " account due to some limitations. Please, check manually"

/-- The remediation branch of `clean_iam_access_keys` (lines 83-121), i.e.
the body of the outer `try`. The confirmation prompt (skipped in batch
mode) and a missing session `continue` with no effects. Disabling the key
is attempted inside the inner `try`: on failure the failure comment is
chosen and `remediation_succeed` is false. The jira and slack calls and
`set_status_remediated` follow unconditionally; if one of them raises, the
outer `except` swallows the exception, so later effects are lost but the
batch continues. Note `set_status_remediated` runs even when disabling the
key failed. -/
def remediateIssue (env : RemEnv) (batch : Bool)
    (account_id account_name : String) (issue : KeyIssue) : List RemEvent :=
  if !batch && !env.confirmOk issue.key_id then []
  else if !env.sessionOk account_id then []
  else
    let ok := env.disableOk issue.key_id
    let comment :=
      if ok then successComment issue.key_id issue.username account_name account_id
      else failureComment issue.key_id issue.username account_name account_id
    RemEvent.keyDisableAttempt issue.username issue.key_id ::
      (if env.jiraRemediateOk issue.key_id then
        if env.slackReportOk issue.key_id then
          [RemEvent.jiraRemediated issue.ticket comment ok,
           RemEvent.slackReported account_id comment,
           RemEvent.statusRemediated issue.key_id]
        else [RemEvent.jiraRemediated issue.ticket comment ok]
      else [])

/-- The per-issue body of `clean_iam_access_keys` (lines 40-124). Returns
the recorded events and `some message` when an exception escapes the body
(only the slack-notified-date parse and the warning branch can raise out
of it; the remediation branch is wrapped in its own `try`/`except`). -/
def processIssue (cfg : SchedConfig) (env : RemEnv) (batch : Bool)
    (account_id account_name : String) (issue : KeyIssue) :
    List RemEvent × Option String :=
  if env.in_whitelist account_id issue.username
      || env.in_whitelist account_id issue.key_id then ([], none)
  else if !issue.reported then ([], none)
  else if issue.alreadyRemediated then ([], none)
  else
    match issue.slackNotifiedAgo with
    | none => ([], some "failed to parse slack_notified_date")
    | some notifiedAgo =>
        let issue_remediation_days := cfg.retention_period - issue.ageDays
        if cfg.remediation_warning_days.contains issue_remediation_days
            && decide (0 < notifiedAgo) then
          if env.slackWarnOk issue.key_id then
            if env.jiraWarnOk issue.key_id then
              ([RemEvent.slackWarned account_id issue.key_id issue_remediation_days,
                RemEvent.jiraWarned issue.ticket issue_remediation_days,
                RemEvent.statusNotified issue.key_id], none)
            else ([RemEvent.slackWarned account_id issue.key_id issue_remediation_days],
                  some "jira update_issue raised")
          else ([], some "slack report_issue raised")
        else if cfg.retention_period ≤ issue.ageDays then
          (RemEvent.remediationStarted issue.key_id ::
            remediateIssue env batch account_id account_name issue, none)
        else ([], none)

/-- The inner loop of `clean_iam_access_keys` over one account's open
issues. There is no per-issue exception handler around the loop body, so
an exception escaping `processIssue` aborts the rest of the batch. -/
def processAccountIssues (cfg : SchedConfig) (env : RemEnv) (batch : Bool)
    (account_id account_name : String) :
    List KeyIssue → List RemEvent × Option String
  | [] => ([], none)
  | issue :: rest =>
      match processIssue cfg env batch account_id account_name issue with
      | (evs, some e) => (evs, some e)
      | (evs, none) =>
          let r := processAccountIssues cfg env batch account_id account_name rest
          (evs ++ r.1, r.2)

/-- `clean_iam_access_keys`: the outer loop over the configured
remediation accounts, each with its open issues. An uncaught exception
aborts the remaining accounts as well. -/
def clean_iam_access_keys (cfg : SchedConfig) (env : RemEnv) (batch : Bool) :
    List (String × String × List KeyIssue) → List RemEvent × Option String
  | [] => ([], none)
  | (aid, aname, issues) :: rest =>
      match processAccountIssues cfg env batch aid aname issues with
      | (evs, some e) => (evs, some e)
      | (evs, none) =>
          let r := clean_iam_access_keys cfg env batch rest
          (evs ++ r.1, r.2)

/-! ## Helper lemmas -/

theorem mergeStatus_self (b : IssueStatus) : mergeStatus b b = b := by
  cases b <;> rfl

theorem mergeStatus_idem (a b : IssueStatus) :
    mergeStatus (mergeStatus a b) b = mergeStatus a b := by
  cases a <;> cases b <;> rfl

theorem detectedStatus_idem (cur : Option IssueRec) (st : IssueStatus) :
    mergeStatus (detectedStatus cur st) st = detectedStatus cur st := by
  cases cur with
  | none => exact mergeStatus_self st
  | some old => exact mergeStatus_idem old.status st

theorem detectedStatus_some_idem (region : String) (cur : Option IssueRec)
    (st : IssueStatus) :
    detectedStatus (some ⟨region, detectedStatus cur st⟩) st
      = detectedStatus cur st := by
  show mergeStatus (detectedStatus cur st) st = detectedStatus cur st
  exact detectedStatus_idem cur st

theorem isOpenIssue_resolved : IssueStatus.Resolved.isOpenIssue = false := rfl

theorem isOpenIssue_detectTarget (wl : String → Bool) (k : String) :
    (detectTarget wl k).isOpenIssue = true := by
  unfold detectTarget
  by_cases h : wl k <;> simp [h, IssueStatus.isOpenIssue]

theorem refreshFinding_other (wl : String → Bool) (region : String)
    (tbl : Store) (td : Finding) (k : String)
    (h : (td.is_privileged && td.name == k) = false) :
    refreshFinding wl region tbl td k = tbl k := by
  unfold refreshFinding ddbUpdate
  rcases Bool.and_eq_false_iff.mp h with hp | hn
  · simp [hp]
  · by_cases hp : td.is_privileged
    · simp only [hp, if_true]
      have : k ≠ td.name := fun he => by simp [he] at hn
      simp [this]
    · simp [hp]

theorem refreshFinding_hit (wl : String → Bool) (region : String)
    (tbl : Store) (td : Finding) (k : String)
    (h : (td.is_privileged && td.name == k) = true) :
    refreshFinding wl region tbl td k =
      some ⟨region, detectedStatus (tbl k) (detectTarget wl k)⟩ := by
  simp only [Bool.and_eq_true, beq_iff_eq] at h
  obtain ⟨hp, hn'⟩ := h
  unfold refreshFinding ddbUpdate
  subst hn'
  simp [hp, detectTarget, detectedStatus]
  cases tbl td.name <;> rfl

/-- Pointwise characterization of the detection loop: a key matched by
some privileged finding holds the refreshed record (scanned region,
whitelist-or-open status merged over the stored one); every other key is
untouched. -/
theorem refreshFindings_apply (wl : String → Bool) (region : String)
    (fs : List Finding) : ∀ (tbl : Store) (k : String),
    refreshFindings wl region tbl fs k =
      if findingMatches fs k then
        some ⟨region, detectedStatus (tbl k) (detectTarget wl k)⟩
      else tbl k := by
  induction fs with
  | nil => intro tbl k; simp [refreshFindings, findingMatches]
  | cons td rest ih =>
      intro tbl k
      have hstep : refreshFindings wl region tbl (td :: rest)
          = refreshFindings wl region (refreshFinding wl region tbl td) rest := rfl
      have hmcons : findingMatches (td :: rest) k
          = ((td.is_privileged && td.name == k) || findingMatches rest k) := by
        simp [findingMatches, List.any_cons]
      rw [hstep, ih, hmcons]
      by_cases h : (td.is_privileged && td.name == k) = true
      · rw [refreshFinding_hit wl region tbl td k h]
        by_cases hr : findingMatches rest k = true
        · simp [h, hr, detectedStatus_some_idem]
        · simp [h, hr]
      · have h' : (td.is_privileged && td.name == k) = false := by
          simpa using h
        rw [refreshFinding_other wl region tbl td k h']
        simp [h']

/-- Pointwise characterization of one reconciliation run (`check()`
succeeded): a prior open-set issue of the scanned region that no
privileged finding names is resolved; a key named by a privileged finding
gets the refreshed record; everything else is untouched. -/
theorem reconcile_apply (wl : String → Bool) (region : String)
    (fs : List Finding) (tbl : Store) (k : String) :
    reconcile wl region fs tbl k =
      match tbl k with
      | some old =>
          if old.region == region && old.status.isOpenIssue
              && !findingMatches fs k
          then some ⟨old.region, .Resolved⟩
          else if findingMatches fs k
               then some ⟨region, mergeStatus old.status (detectTarget wl k)⟩
               else some old
      | none =>
          if findingMatches fs k then some ⟨region, detectTarget wl k⟩
          else none := by
  unfold reconcile scanRegion
  cases h : tbl k with
  | none =>
      simp only [h, if_true]
      rw [refreshFindings_apply wl region fs tbl k]
      simp [h, detectedStatus]
  | some old =>
      by_cases hm : findingMatches fs k = true
      · simp only [h, hm, if_true]
        rw [refreshFindings_apply wl region fs tbl k]
        simp [h, hm, detectedStatus]
      · simp only [h, hm, if_true]
        rw [refreshFindings_apply wl region fs tbl k]
        simp [h, hm]

/-- Pointwise characterization of a region scan whose `check()` failed:
nothing is refreshed, every open-set issue of the scanned region is
resolved, everything else is untouched. -/
theorem scanRegion_false_apply (wl : String → Bool) (region : String)
    (fs : List Finding) (tbl : Store) (k : String) :
    scanRegion false wl region fs tbl k =
      match tbl k with
      | some old =>
          if old.region == region && old.status.isOpenIssue
          then some ⟨old.region, .Resolved⟩
          else some old
      | none => none := by
  unfold scanRegion
  cases h : tbl k <;> simp [h]

theorem mergeStatus_detectTarget_ne_resolved (a : IssueStatus)
    (wl : String → Bool) (k : String) :
    mergeStatus a (detectTarget wl k) ≠ IssueStatus.Resolved := by
  by_cases h : wl k <;>
    simp only [detectTarget, h, if_true, if_false] <;> cases a <;> decide

theorem popRegion_concat (rs : List String) (r : String) :
    popRegion (rs ++ [r]) = some (r, rs) := by
  unfold popRegion
  rw [List.reverse_append]
  simp

/-- One step of the chain under a successful session: the last region is
popped and scanned, and the payload minus that region is republished iff
regions remain and the publish succeeds. -/
theorem lambda_handler_step (env : ScanEnv) (p : Payload) (tbl : Store)
    (r : String) (rest : List String)
    (hs : env.sessionOk = true)
    (hpop : popRegion p.regions = some (r, rest)) :
    lambda_handler env p tbl =
      ⟨scanRegion env.checkOk env.wl r (env.findings r) tbl,
       if !rest.isEmpty && env.publishOk then
         some ⟨p.account_id, p.account_name, rest, p.sns_arn⟩
       else none,
       some r⟩ := by
  unfold lambda_handler
  rw [hpop]
  simp [hs]

/-- One unfolding step of the chain simulation. -/
theorem runChain_succ (env : ScanEnv) (fuel : Nat) (p : Payload)
    (tbl : Store) :
    runChain env (fuel + 1) p tbl =
      match (lambda_handler env p tbl).scanned,
            (lambda_handler env p tbl).published with
      | some reg, some p' =>
          ((reg :: (runChain env fuel p' (lambda_handler env p tbl).table).1),
           (runChain env fuel p' (lambda_handler env p tbl).table).2)
      | some reg, none => ([reg], (lambda_handler env p tbl).table)
      | none, _ => ([], (lambda_handler env p tbl).table) := rfl

/-- The continuation chain scans the regions of the payload in reverse
(LIFO) order when the session and the publishes succeed. -/
theorem runChain_scans_reverse (env : ScanEnv)
    (hs : env.sessionOk = true) (hpub : env.publishOk = true) :
    ∀ (l : List String) (p : Payload) (tbl : Store),
      p.regions.reverse = l → (runChain env l.length p tbl).1 = l := by
  intro l
  induction l with
  | nil =>
      intro p tbl h
      have : p.regions = [] := List.reverse_eq_nil_iff.mp h
      simp [runChain]
  | cons r t ih =>
      intro p tbl h
      have hpop : popRegion p.regions = some (r, t.reverse) := by
        unfold popRegion
        rw [h]
      have hlh := lambda_handler_step env p tbl r t.reverse hs hpop
      cases t with
      | nil => simp [runChain, hlh]
      | cons x t' =>
          have hne : ((x :: t').reverse).isEmpty = false := by
            simp [List.isEmpty_iff]
          have hrec : (runChain env (x :: t').length
              ⟨p.account_id, p.account_name, (x :: t').reverse, p.sns_arn⟩
              (scanRegion env.checkOk env.wl r (env.findings r) tbl)).1
              = x :: t' := by
            exact ih _ _ (by simp)
          show (runChain env ((x :: t').length + 1) p tbl).1 = r :: x :: t'
          rw [runChain_succ env (x :: t').length p tbl, hlh]
          simp only [hne, hpub, Bool.not_false, Bool.and_self, if_true]
          simpa using hrec

/-! ## Claims about the ECS scan handler -/

/-- Claim C1: during reconciliation, a detected, non-whitelisted resource
has its issue status set to `Open` only if the stored issue is not already
further along: a stored `Notified` or `Remediated` status for the same
`(account_id, issue_id)` is kept, never regressed back to `Open` by the
detection refresh. -/
theorem detection_refresh_no_regression (wl : String → Bool)
    (region : String) (fs : List Finding) (tbl : Store) (k : String)
    (old : IssueRec)
    (hm : findingMatches fs k = true) (hw : wl k = false)
    (ho : tbl k = some old) :
    reconcile wl region fs tbl k =
      some ⟨region,
        if old.status = .Notified ∨ old.status = .Remediated
        then old.status else .Open⟩ := by
  rw [reconcile_apply, ho]
  simp [hm, detectTarget, hw, mergeStatus]

/-- Witness for C1: a stored `Notified` issue re-detected (not
whitelisted) keeps status `Notified`. -/
theorem detection_refresh_no_regression_witness :
    reconcile (fun _ => false) "us-east-1" [⟨"td1", true⟩]
      (fun k => if k = "td1" then some ⟨"us-east-1", .Notified⟩ else none)
      "td1" = some ⟨"us-east-1", .Notified⟩ := by
  have h := detection_refresh_no_regression (fun _ => false) "us-east-1"
    [⟨"td1", true⟩]
    (fun k => if k = "td1" then some ⟨"us-east-1", .Notified⟩ else none)
    "td1" ⟨"us-east-1", .Notified⟩ (by decide) rfl (by decide)
  simpa using h

/-- Counterexample for C4 as stated: issue ids are task-definition names
with no region component, so a scan of `us-east-1` that finds a privileged
task named `shared-task` rewrites the issue recorded for `eu-west-1`
under the same id (its recorded region changes) — a scan of region X can
change an issue recorded in region Y. -/
theorem region_scan_cross_region_change_cex :
    reconcile (fun _ => false) "us-east-1" [⟨"shared-task", true⟩]
      (fun k => if k = "shared-task" then some ⟨"eu-west-1", .Open⟩ else none)
      "shared-task" = some ⟨"us-east-1", .Open⟩ ∧
    (fun k => if k = "shared-task" then
        some (⟨"eu-west-1", .Open⟩ : IssueRec) else none) "shared-task"
      = some ⟨"eu-west-1", .Open⟩ ∧
    reconcile (fun _ => false) "us-east-1" [⟨"shared-task", true⟩]
      (fun k => if k = "shared-task" then some ⟨"eu-west-1", .Open⟩ else none)
      "shared-task"
      ≠ (fun k => if k = "shared-task" then
          some (⟨"eu-west-1", .Open⟩ : IssueRec) else none) "shared-task" := by
  exact ⟨by decide, by decide, by decide⟩

/-- Claim C4 (amended): an `Open` issue recorded in region X is set to
`Resolved` by a scan of region X whose privileged findings do not contain
its id; a scan of region X leaves an issue recorded in another region Y
untouched as long as no privileged finding shares its id; and a scan
of region X never sets an issue recorded in region Y to `Resolved`. -/
theorem resolution_correctness (wl : String → Bool) (regionX : String)
    (fs : List Finding) (tbl : Store) (k : String) (old : IssueRec)
    (ho : tbl k = some old) :
    (old.region = regionX → old.status = .Open →
      findingMatches fs k = false →
      reconcile wl regionX fs tbl k = some ⟨regionX, .Resolved⟩) ∧
    (old.region ≠ regionX → findingMatches fs k = false →
      reconcile wl regionX fs tbl k = some old) ∧
    (old.region ≠ regionX → old.status ≠ .Resolved →
      ∀ rec : IssueRec, reconcile wl regionX fs tbl k = some rec →
        rec.status ≠ .Resolved) := by
  refine ⟨?_, ?_, ?_⟩
  · intro h1 h2 h3
    rw [reconcile_apply, ho]
    simp [h1, h2, h3, IssueStatus.isOpenIssue]
  · intro hne hm
    rw [reconcile_apply, ho]
    simp [hm, hne]
  · intro hne hst rec hrec
    rw [reconcile_apply, ho] at hrec
    by_cases hm : findingMatches fs k = true
    · simp [hm, hne] at hrec
      intro hres
      rw [← hrec] at hres
      exact mergeStatus_detectTarget_ne_resolved old.status wl k hres
    · simp [hm, hne] at hrec
      rw [← hrec]
      exact hst

/-- Witness for C4 (amended): an open issue of the scanned region absent
from the findings is resolved. -/
theorem resolution_correctness_witness :
    reconcile (fun _ => false) "ap-south-1" []
      (fun k => if k = "gone-task" then some ⟨"ap-south-1", .Open⟩ else none)
      "gone-task" = some ⟨"ap-south-1", .Resolved⟩ := by
  have h := (resolution_correctness (fun _ => false) "ap-south-1" []
    (fun k => if k = "gone-task" then some ⟨"ap-south-1", .Open⟩ else none)
    "gone-task" ⟨"ap-south-1", .Open⟩ (by decide)).1 rfl rfl (by decide)
  simpa using h

/-- Claim C6: a detected resource that the whitelist filter exempts is
always written with status `Whitelisted`, never `Open`, whatever status
(including `Open`) was stored before. -/
theorem whitelist_precedence (wl : String → Bool) (region : String)
    (fs : List Finding) (tbl : Store) (k : String)
    (hm : findingMatches fs k = true) (hw : wl k = true) :
    reconcile wl region fs tbl k = some ⟨region, .Whitelisted⟩ := by
  rw [reconcile_apply]
  cases h : tbl k with
  | none => simp [hm, detectTarget, hw]
  | some old => simp [hm, detectTarget, hw, mergeStatus]

/-- Witness for C6: a previously `Open` issue whose resource is
whitelisted becomes `Whitelisted`. -/
theorem whitelist_precedence_witness :
    reconcile (fun _ => true) "r1" [⟨"td2", true⟩]
      (fun k => if k = "td2" then some ⟨"r1", .Open⟩ else none) "td2"
      = some ⟨"r1", .Whitelisted⟩ := by
  have h := whitelist_precedence (fun _ => true) "r1" [⟨"td2", true⟩]
    (fun k => if k = "td2" then some ⟨"r1", .Open⟩ else none) "td2"
    (by decide) rfl
  simpa using h

/-- Claim C8: reconciliation is idempotent per region — re-running it with
an identical finding set over the state the first run produced changes
nothing: every issue keeps the status the first run assigned and no
further issue is resolved. -/
theorem reconcile_idempotent (wl : String → Bool) (region : String)
    (fs : List Finding) (tbl : Store) :
    reconcile wl region fs (reconcile wl region fs tbl)
      = reconcile wl region fs tbl := by
  funext k
  have h1 := reconcile_apply wl region fs tbl k
  rw [reconcile_apply wl region fs (reconcile wl region fs tbl) k, h1]
  by_cases hm : findingMatches fs k = true
  · cases h : tbl k with
    | none => simp [hm, isOpenIssue_detectTarget, mergeStatus_self]
    | some old => simp [hm, mergeStatus_idem]
  · have hm' : findingMatches fs k = false := by simpa using hm
    cases h : tbl k with
    | none => simp [hm']
    | some old =>
        by_cases hc : (old.region == region && old.status.isOpenIssue) = true
        · simp only [Bool.and_eq_true] at hc
          obtain ⟨hreg, hop⟩ := hc
          simp [hm', hreg, hop, isOpenIssue_resolved]
        · have hc' : (old.region == region && old.status.isOpenIssue) = false := by
            simpa using hc
          simp [hm', hc']

/-- Claim C9: with an established session but a failed `checker.check()`,
the handler creates and refreshes nothing, yet still sets every stored
open/whitelisted/notified issue of the scanned region to `Resolved`:
the resolve-missing step is not guarded by the scan succeeding. -/
theorem resolve_step_runs_on_failed_check (env : ScanEnv) (p : Payload)
    (tbl : Store) (region : String) (rest : List String) (k : String)
    (hs : env.sessionOk = true) (hc : env.checkOk = false)
    (hpop : popRegion p.regions = some (region, rest)) :
    (lambda_handler env p tbl).table k =
      match tbl k with
      | some old =>
          if old.region == region && old.status.isOpenIssue
          then some ⟨old.region, .Resolved⟩
          else some old
      | none => none := by
  unfold lambda_handler
  rw [hpop]
  simp only [hs, hc, if_true]
  exact scanRegion_false_apply env.wl region (env.findings region) tbl k

/-- Witness for C9: an open issue of the scanned region is resolved by an
invocation whose `check()` failed and produced no findings. -/
theorem resolve_step_runs_on_failed_check_witness :
    (lambda_handler ⟨true, false, fun _ => false, fun _ => [], true⟩
        ⟨"acc", "nm", ["X"], "topic"⟩
        (fun k => if k = "i1" then some ⟨"X", .Open⟩ else none)).table "i1"
      = some ⟨"X", .Resolved⟩ := by
  have h := resolve_step_runs_on_failed_check
    ⟨true, false, fun _ => false, fun _ => [], true⟩
    ⟨"acc", "nm", ["X"], "topic"⟩
    (fun k => if k = "i1" then some ⟨"X", .Open⟩ else none)
    "X" [] "i1" rfl rfl (by decide)
  simpa using h

/-- Claim C10: a trigger event with an empty region list fails inside the
parse step (the pop raises), and the handler returns with the store
unchanged, nothing scanned and nothing republished. -/
theorem empty_regions_aborts_parse (env : ScanEnv) (aid aname arn : String)
    (tbl : Store) :
    lambda_handler env ⟨aid, aname, [], arn⟩ tbl = ⟨tbl, none, none⟩ := rfl

/-- Claim C5: with the session and the publishes succeeding, one
invocation pops exactly the last region (LIFO), republishes the payload —
identical but for the removed region — iff regions remain, and simulating
the whole chain scans the regions in reverse order, so each region of the
original payload is scanned exactly once. -/
theorem scan_continuation_lifo (env : ScanEnv) (p : Payload) (tbl : Store)
    (hs : env.sessionOk = true) (hpub : env.publishOk = true)
    (hne : p.regions ≠ []) :
    (lambda_handler env p tbl).scanned = p.regions.getLast? ∧
    (lambda_handler env p tbl).published =
      (if p.regions.dropLast.isEmpty then none
       else some ⟨p.account_id, p.account_name, p.regions.dropLast,
                  p.sns_arn⟩) ∧
    (runChain env p.regions.length p tbl).1 = p.regions.reverse ∧
    (∀ r : String, (runChain env p.regions.length p tbl).1.count r
        = p.regions.count r) := by
  obtain ⟨rs, r, hre0⟩ := p.regions.eq_nil_or_concat.resolve_left hne
  have hre : p.regions = rs ++ [r] := by
    rw [hre0, List.concat_eq_append]
  have hpop : popRegion p.regions = some (r, rs) := by
    rw [hre]
    exact popRegion_concat rs r
  have hlh := lambda_handler_step env p tbl r rs hs hpop
  refine ⟨?_, ?_, ?_, ?_⟩
  · rw [hlh, hre]
    simp [List.getLast?_concat]
  · rw [hlh, hre, List.dropLast_concat]
    cases he : rs.isEmpty <;> simp [he, hpub]
  · have := runChain_scans_reverse env hs hpub p.regions.reverse p tbl rfl
    simpa using this
  · intro q
    have := runChain_scans_reverse env hs hpub p.regions.reverse p tbl rfl
    rw [List.length_reverse] at this
    rw [this, List.count_reverse]

/-- Witness for C5: the chain over regions `[a, b, c]` scans `c`, then
`b`, then `a` — each region exactly once. -/
theorem scan_continuation_lifo_witness :
    (runChain ⟨true, true, fun _ => false, fun _ => [], true⟩ 3
        ⟨"acc", "nm", ["a", "b", "c"], "topic"⟩ (fun _ => none)).1
      = ["c", "b", "a"] := by
  have h := (scan_continuation_lifo
      ⟨true, true, fun _ => false, fun _ => [], true⟩
      ⟨"acc", "nm", ["a", "b", "c"], "topic"⟩ (fun _ => none)
      rfl rfl (by decide)).2.2.1
  simpa using h

/-! ## Claims about the IAM key-rotation scheduler -/

/-- Counterexample for C2 as stated: a concrete issue whose
`disable_access_key` fails. The distinct failure comment asking for a
manual check is recorded, but `set_status_remediated` still runs (line 118
is outside the inner `try`), so the status is not left unchanged: the
issue is marked `Remediated` and will be skipped, not retried, on the next
scheduler run. -/
theorem remediation_failure_still_marks_remediated_cex :
    (processIssue ⟨5, [3, 1]⟩
        ⟨fun _ _ => false, fun _ => true, fun _ => true, fun _ => false,
         fun _ => true, fun _ => true, fun _ => true, fun _ => true⟩
        true "123" "acct" ⟨"AKIA1", "bob", true, false, 7, some 2, "T-1"⟩).1
      = [RemEvent.remediationStarted "AKIA1",
         RemEvent.keyDisableAttempt "bob" "AKIA1",
         RemEvent.jiraRemediated "T-1"
           (failureComment "AKIA1" "bob" "acct" "123") false,
         RemEvent.slackReported "123"
           (failureComment "AKIA1" "bob" "acct" "123"),
         RemEvent.statusRemediated "AKIA1"] ∧
    RemEvent.statusRemediated "AKIA1"
      ∈ (processIssue ⟨5, [3, 1]⟩
          ⟨fun _ _ => false, fun _ => true, fun _ => true, fun _ => false,
           fun _ => true, fun _ => true, fun _ => true, fun _ => true⟩
          true "123" "acct" ⟨"AKIA1", "bob", true, false, 7, some 2, "T-1"⟩).1 ∧
    failureComment "AKIA1" "bob" "acct" "123"
      ≠ successComment "AKIA1" "bob" "acct" "123" := by
  exact ⟨rfl, by decide, by decide⟩

/-- Claim C2 (amended): when remediation is attempted and disabling the
key fails while the jira/slack calls succeed, a distinct failure comment
asking for manual intervention is recorded (ticket updated without
reassignment), and the issue's status is nevertheless set to `Remediated`
— the same terminal write as on success — so the issue is skipped as
already-remediated on later runs instead of being retried. -/
theorem remediation_failure_comment_and_status (cfg : SchedConfig)
    (env : RemEnv) (batch : Bool) (aid aname : String) (issue : KeyIssue)
    (d : Int)
    (hw1 : env.in_whitelist aid issue.username = false)
    (hw2 : env.in_whitelist aid issue.key_id = false)
    (hrep : issue.reported = true)
    (hrem : issue.alreadyRemediated = false)
    (hpar : issue.slackNotifiedAgo = some d)
    (hwarn : (cfg.remediation_warning_days.contains
        (cfg.retention_period - issue.ageDays) && decide (0 < d)) = false)
    (hage : cfg.retention_period ≤ issue.ageDays)
    (hconf : (!batch && !env.confirmOk issue.key_id) = false)
    (hsess : env.sessionOk aid = true)
    (hdis : env.disableOk issue.key_id = false)
    (hjira : env.jiraRemediateOk issue.key_id = true)
    (hslack : env.slackReportOk issue.key_id = true) :
    processIssue cfg env batch aid aname issue =
      ([RemEvent.remediationStarted issue.key_id,
        RemEvent.keyDisableAttempt issue.username issue.key_id,
        RemEvent.jiraRemediated issue.ticket
          (failureComment issue.key_id issue.username aname aid) false,
        RemEvent.slackReported aid
          (failureComment issue.key_id issue.username aname aid),
        RemEvent.statusRemediated issue.key_id], none) := by
  unfold processIssue remediateIssue
  rw [hpar]
  dsimp only
  rw [hwarn, hconf]
  simp [hw1, hw2, hrep, hrem, hage, hsess, hdis, hjira, hslack]

/-- Witness for C2 (amended): concrete unattended-mode run; the key
disable fails, the failure comment is recorded, the status write to
`Remediated` still happens. -/
theorem remediation_failure_comment_and_status_witness :
    processIssue ⟨10, [7]⟩
        ⟨fun _ _ => false, fun _ => true, fun _ => true, fun _ => false,
         fun _ => true, fun _ => true, fun _ => true, fun _ => true⟩
        false "900" "wit" ⟨"AKIA2", "carol", true, false, 10, some 0, "T-9"⟩
      = ([RemEvent.remediationStarted "AKIA2",
          RemEvent.keyDisableAttempt "carol" "AKIA2",
          RemEvent.jiraRemediated "T-9"
            (failureComment "AKIA2" "carol" "wit" "900") false,
          RemEvent.slackReported "900"
            (failureComment "AKIA2" "carol" "wit" "900"),
          RemEvent.statusRemediated "AKIA2"], none) := by
  exact remediation_failure_comment_and_status ⟨10, [7]⟩
    ⟨fun _ _ => false, fun _ => true, fun _ => true, fun _ => false,
     fun _ => true, fun _ => true, fun _ => true, fun _ => true⟩
    false "900" "wit" ⟨"AKIA2", "carol", true, false, 10, some 0, "T-9"⟩
    0 rfl rfl rfl rfl rfl (by decide) (by decide) (by decide) rfl rfl rfl rfl

/-- Counterexample for C3 as stated: the warning-notification branch is
not wrapped in a per-issue `try`/`except`, so a slack failure while
notifying the first issue escapes the loop body and aborts the batch —
the second issue, which on its own would be remediated, is never
processed. -/
theorem notification_exception_aborts_batch_cex :
    processAccountIssues ⟨5, [2]⟩
        ⟨fun _ _ => false, fun _ => true, fun _ => true, fun _ => true,
         fun k => k == "K2", fun _ => true, fun _ => true, fun _ => true⟩
        true "1" "acct"
        [⟨"K1", "u1", true, false, 3, some 1, "T-1"⟩,
         ⟨"K2", "u2", true, false, 9, some 1, "T-2"⟩]
      = ([], some "slack report_issue raised") ∧
    processAccountIssues ⟨5, [2]⟩
        ⟨fun _ _ => false, fun _ => true, fun _ => true, fun _ => true,
         fun k => k == "K2", fun _ => true, fun _ => true, fun _ => true⟩
        true "1" "acct"
        [⟨"K2", "u2", true, false, 9, some 1, "T-2"⟩]
      = ([RemEvent.remediationStarted "K2",
          RemEvent.keyDisableAttempt "u2" "K2",
          RemEvent.jiraRemediated "T-2" (successComment "K2" "u2" "acct" "1") true,
          RemEvent.slackReported "1" (successComment "K2" "u2" "acct" "1"),
          RemEvent.statusRemediated "K2"], none) := by
  exact ⟨rfl, rfl⟩

/-- Claim C3 (amended): an exception inside the remediation branch never
escapes the per-issue processing (the branch is wrapped in its own
`try`/`except`), and an issue that finishes without an uncaught exception
never blocks the remaining batch; but an exception raised in the
warning-notification dispatch (or while parsing the notified timestamp)
escapes and aborts the remaining issues. -/
theorem remediation_exception_isolation (cfg : SchedConfig) (env : RemEnv)
    (batch : Bool) (aid aname : String) :
    (∀ (issue : KeyIssue) (d : Int),
      issue.slackNotifiedAgo = some d →
      (cfg.remediation_warning_days.contains
          (cfg.retention_period - issue.ageDays) && decide (0 < d)) = false →
      (processIssue cfg env batch aid aname issue).2 = none) ∧
    (∀ (issue : KeyIssue) (rest : List KeyIssue),
      (processIssue cfg env batch aid aname issue).2 = none →
      processAccountIssues cfg env batch aid aname (issue :: rest)
        = ((processIssue cfg env batch aid aname issue).1
            ++ (processAccountIssues cfg env batch aid aname rest).1,
           (processAccountIssues cfg env batch aid aname rest).2)) := by
  constructor
  · intro issue d hpar hwarn
    unfold processIssue
    rw [hpar]
    dsimp only
    rw [hwarn]
    by_cases h1 : (env.in_whitelist aid issue.username
        || env.in_whitelist aid issue.key_id) = true
    · simp [h1]
    · by_cases h2 : issue.reported
      · by_cases h3 : issue.alreadyRemediated
        · simp [h1, h2, h3]
        · by_cases h4 : cfg.retention_period ≤ issue.ageDays
          · simp [h1, h2, h3, h4]
          · simp [h1, h2, h3, h4]
      · simp [h1, h2]
  · intro issue rest hok
    have hps : processIssue cfg env batch aid aname issue
        = ((processIssue cfg env batch aid aname issue).1, none) := by
      rw [← hok]
    simp only [processAccountIssues]
    rw [hps]

/-- Witness for C3 (amended): a concrete issue whose remediation branch
raises everywhere (disable, jira and slack all fail) still produces no
escaping exception. -/
theorem remediation_exception_isolation_witness :
    (processIssue ⟨5, []⟩
        ⟨fun _ _ => false, fun _ => true, fun _ => true, fun _ => false,
         fun _ => true, fun _ => true, fun _ => false, fun _ => false⟩
        true "77" "iso" ⟨"K4", "u4", true, false, 6, some 1, "T-4"⟩).2
      = none := by
  exact (remediation_exception_isolation ⟨5, []⟩
    ⟨fun _ _ => false, fun _ => true, fun _ => true, fun _ => false,
     fun _ => true, fun _ => true, fun _ => false, fun _ => false⟩
    true "77" "iso").1 ⟨"K4", "u4", true, false, 6, some 1, "T-4"⟩ 1
    rfl (by decide)

/-- Counterexample for C7 as stated: with `0` among the configured warning
thresholds and a stale notification timestamp, an issue at
`age_days = retention_period` (not whitelisted, reported, not yet
remediated) takes the warning branch of the `elif` chain instead — the
remediation branch is never reached. -/
theorem remediation_gate_warning_shadows_cex :
    processIssue ⟨5, [0]⟩
        ⟨fun _ _ => false, fun _ => true, fun _ => true, fun _ => true,
         fun _ => true, fun _ => true, fun _ => true, fun _ => true⟩
        true "1" "acct" ⟨"K3", "u3", true, false, 5, some 3, "T-3"⟩
      = ([RemEvent.slackWarned "1" "K3" 0,
          RemEvent.jiraWarned "T-3" 0,
          RemEvent.statusNotified "K3"], none) ∧
    RemEvent.remediationStarted "K3"
      ∉ (processIssue ⟨5, [0]⟩
          ⟨fun _ _ => false, fun _ => true, fun _ => true, fun _ => true,
           fun _ => true, fun _ => true, fun _ => true, fun _ => true⟩
          true "1" "acct" ⟨"K3", "u3", true, false, 5, some 3, "T-3"⟩).1 := by
  exact ⟨rfl, by decide⟩

/-- Claim C7 (amended): an issue one day short of the retention period
never reaches the remediation branch, under any configuration and any
oracle behaviour; an issue at or past the retention period reaches it
provided it is not whitelisted, was reported, is not already remediated,
its notified timestamp parses, and the warning branch does not fire
first. -/
theorem remediation_gate (cfg : SchedConfig) (env : RemEnv) (batch : Bool)
    (aid aname : String) (issue : KeyIssue) :
    (issue.ageDays = cfg.retention_period - 1 →
      RemEvent.remediationStarted issue.key_id
        ∉ (processIssue cfg env batch aid aname issue).1) ∧
    (∀ d : Int,
      env.in_whitelist aid issue.username = false →
      env.in_whitelist aid issue.key_id = false →
      issue.reported = true →
      issue.alreadyRemediated = false →
      issue.slackNotifiedAgo = some d →
      (cfg.remediation_warning_days.contains
          (cfg.retention_period - issue.ageDays) && decide (0 < d)) = false →
      cfg.retention_period ≤ issue.ageDays →
      RemEvent.remediationStarted issue.key_id
        ∈ (processIssue cfg env batch aid aname issue).1) := by
  constructor
  · intro hage
    have hlt : ¬ cfg.retention_period ≤ issue.ageDays := by omega
    unfold processIssue
    by_cases h1 : (env.in_whitelist aid issue.username
        || env.in_whitelist aid issue.key_id) = true
    · simp [h1]
    · by_cases h2 : issue.reported
      · by_cases h3 : issue.alreadyRemediated
        · simp [h1, h2, h3]
        · cases hpar : issue.slackNotifiedAgo with
          | none => simp [h1, h2, h3, hpar]
          | some d =>
              dsimp only
              by_cases h5 : (cfg.remediation_warning_days.contains
                  (cfg.retention_period - issue.ageDays)
                  && decide (0 < d)) = true
              · rw [h5]
                by_cases h6 : env.slackWarnOk issue.key_id <;>
                  by_cases h7 : env.jiraWarnOk issue.key_id <;>
                    simp [h1, h2, h3, h6, h7]
              · have h5' : (cfg.remediation_warning_days.contains
                    (cfg.retention_period - issue.ageDays)
                    && decide (0 < d)) = false := by
                  simpa using h5
                rw [h5']
                simp [h1, h2, h3, hlt]
      · simp [h1, h2]
  · intro d hw1 hw2 hrep hrem hpar hwarn hage
    unfold processIssue
    rw [hpar]
    dsimp only
    rw [hwarn]
    simp [hw1, hw2, hrep, hrem, hage]

/-- Witness for C7 (amended): a concrete non-excluded issue exactly at the
retention period reaches the remediation branch. -/
theorem remediation_gate_witness :
    (RemEvent.remediationStarted "K5"
      ∉ (processIssue ⟨8, [3]⟩
          ⟨fun _ _ => false, fun _ => true, fun _ => true, fun _ => true,
           fun _ => true, fun _ => true, fun _ => true, fun _ => true⟩
          true "2" "gate" ⟨"K5", "u5", true, false, 7, some 1, "T-5"⟩).1) ∧
    (RemEvent.remediationStarted "K6"
      ∈ (processIssue ⟨8, [3]⟩
          ⟨fun _ _ => false, fun _ => true, fun _ => true, fun _ => true,
           fun _ => true, fun _ => true, fun _ => true, fun _ => true⟩
          true "2" "gate" ⟨"K6", "u6", true, false, 8, some 1, "T-6"⟩).1) := by
  constructor
  · exact (remediation_gate ⟨8, [3]⟩
      ⟨fun _ _ => false, fun _ => true, fun _ => true, fun _ => true,
       fun _ => true, fun _ => true, fun _ => true, fun _ => true⟩
      true "2" "gate" ⟨"K5", "u5", true, false, 7, some 1, "T-5"⟩).1 (by decide)
  · exact (remediation_gate ⟨8, [3]⟩
      ⟨fun _ _ => false, fun _ => true, fun _ => true, fun _ => true,
       fun _ => true, fun _ => true, fun _ => true, fun _ => true⟩
      true "2" "gate" ⟨"K6", "u6", true, false, 8, some 1, "T-6"⟩).2 1
      rfl rfl rfl rfl rfl (by decide) (by decide)

end Hammer
